import Mathlib

/-!
Shallow embedding of the auto-feedback sentiment-analysis service.

Source files embedded:
* `src/app/model.py` — `SentimentAnalyzer` (TextBlob / transformers backends,
  fallback policy, empty-input handling).
* `src/app/main.py` — the `/analyze`, `/history` and `/stats` endpoints and the
  module-level `analysis_history` list (the History Ledger).

Python floats are modelled as rationals (`ℚ`); Python `round(x, n)` is
round-half-to-even at `n` decimal digits, modelled exactly on `ℚ`.
External libraries (TextBlob polarity/subjectivity, the Hugging Face pipeline)
are parameters of the embedding: an `Env` record carries the lexicon scoring
function and the (possibly failing) pipeline loader, and the per-call
transformer invocation is a function returning `Except`.
-/

namespace AutoFeedback

/-- Python `round` at the integer level: round half to even (banker's rounding). -/
def roundHalfEven (x : ℚ) : ℤ :=
  if x - ⌊x⌋ < 1/2 then ⌊x⌋
  else if 1/2 < x - ⌊x⌋ then ⌊x⌋ + 1
  else if ⌊x⌋ % 2 = 0 then ⌊x⌋ else ⌊x⌋ + 1

/-- Python `round(x, 2)`. -/
def round2 (x : ℚ) : ℚ := (roundHalfEven (x * 100) : ℚ) / 100

/-- Python `round(x, 3)`. -/
def round3 (x : ℚ) : ℚ := (roundHalfEven (x * 1000) : ℚ) / 1000

/-- The three sentiment labels produced by the analyzer. -/
inductive Sentiment where
  | Positive
  | Negative
  | Neutral
deriving DecidableEq

/-- String constant "textblob" (requested-backend value in `model.py`). -/
def sTextblob : String := "textblob"

/-- String constant "transformers" (requested-backend value in `model.py`). -/
def sTransformers : String := "transformers"

/-- String constant "TextBlob" (the `model` field of a lexicon result). -/
def mTextBlob : String := "TextBlob"

/-- String constant "DistilBERT" (the `model` field of a transformer result). -/
def mDistilBERT : String := "DistilBERT"

/-- String constant "POSITIVE" (transformer label). -/
def lPOSITIVE : String := "POSITIVE"

/-- String constant "NEGATIVE" (transformer label). -/
def lNEGATIVE : String := "NEGATIVE"

/-- String constant "Empty text provided" (the empty-input marker). -/
def emptyTextError : String := "Empty text provided"

/-- The result dictionary returned by the analyzer. Keys that are absent from a
given Python dict are `none` here: `polarity`/`subjectivity` are present only
for TextBlob results, `score` only for transformer results, `model` is absent
from the empty-input result, and `error` is present only there. -/
structure AnalysisResult where
  sentiment : Sentiment
  confidence : ℚ
  polarity : Option ℚ
  subjectivity : Option ℚ
  score : Option ℚ
  model : Option String
  error : Option String
deriving DecidableEq

/-- Output of one transformer pipeline call: `{"label": ..., "score": ...}`. -/
structure TransformerOutput where
  label : String
  score : ℚ
deriving DecidableEq

/-- The ambient external libraries of `model.py`:
`lex` is TextBlob (text ↦ (polarity, subjectivity));
`transformersAvailable` is the module-level `TRANSFORMERS_AVAILABLE` flag;
`loadPipeline` is the pipeline constructor — `none` models the load raising,
`some tm` a successful load whose per-call invocation `tm` may still fail
(`Except.error` models a raised per-call exception). -/
structure Env where
  transformersAvailable : Bool
  loadPipeline : Option (String → Except String TransformerOutput)
  lex : String → ℚ × ℚ

/-- The mutable state of a `SentimentAnalyzer` instance after `__init__`. -/
structure SentimentAnalyzer where
  model_type : String
  transformer_model : Option (String → Except String TransformerOutput)

/-- `SentimentAnalyzer.__init__`: if transformers are requested, fall back to
TextBlob when the library is absent or the pipeline load raises. -/
def SentimentAnalyzer.init (env : Env) (model_type : String) : SentimentAnalyzer :=
  if model_type = sTransformers then
    if env.transformersAvailable then
      match env.loadPipeline with
      | some tm => { model_type := model_type, transformer_model := some tm }
      | none => { model_type := sTextblob, transformer_model := none }
    else { model_type := sTextblob, transformer_model := none }
  else { model_type := model_type, transformer_model := none }

/-- `SentimentAnalyzer.analyze_with_textblob`: threshold classification on the
TextBlob polarity, with the branch-specific confidence formula, rounded on
return exactly as the Python `return` dict does. -/
def analyze_with_textblob (env : Env) (text : String) : AnalysisResult :=
  let polarity := (env.lex text).1
  let subjectivity := (env.lex text).2
  if polarity > 1/10 then
    { sentiment := Sentiment.Positive
      confidence := round2 (min (polarity * 100) 100)
      polarity := some (round3 polarity)
      subjectivity := some (round3 subjectivity)
      score := none, model := some mTextBlob, error := none }
  else if polarity < -(1/10) then
    { sentiment := Sentiment.Negative
      confidence := round2 (min (|polarity| * 100) 100)
      polarity := some (round3 polarity)
      subjectivity := some (round3 subjectivity)
      score := none, model := some mTextBlob, error := none }
  else
    { sentiment := Sentiment.Neutral
      confidence := round2 (100 - |polarity| * 100)
      polarity := some (round3 polarity)
      subjectivity := some (round3 subjectivity)
      score := none, model := some mTextBlob, error := none }

/-- Python `text.split()`: split on whitespace runs, dropping empty pieces. -/
def pySplitWs (text : String) : List String :=
  (text.split Char.isWhitespace).filter (fun w => w ≠ ([] : List Char).asString)

/-- The truncation applied before a transformer call:
`" ".join(text.split()[:512])` when the word count exceeds 512. -/
def truncate512 (text : String) : String :=
  if (pySplitWs text).length > 512 then
    String.intercalate ([' '].asString) ((pySplitWs text).take 512)
  else text

/-- `SentimentAnalyzer.analyze_with_transformers`: fall back to TextBlob when
the model is absent or the per-call invocation raises; otherwise map the label
to a sentiment and return the rounded score-based confidence. -/
def analyze_with_transformers (a : SentimentAnalyzer) (env : Env) (text : String) :
    AnalysisResult :=
  match a.transformer_model with
  | none => analyze_with_textblob env text
  | some tm =>
    match tm (truncate512 text) with
    | Except.error _ => analyze_with_textblob env text
    | Except.ok r =>
      { sentiment :=
          if r.label = lPOSITIVE then Sentiment.Positive
          else if r.label = lNEGATIVE then Sentiment.Negative
          else Sentiment.Neutral
        confidence := round2 (r.score * 100)
        polarity := none, subjectivity := none
        score := some (round3 r.score)
        model := some mDistilBERT, error := none }

/-- Python `not text or not text.strip()`: empty or whitespace-only. -/
def isBlank (text : String) : Bool := text.data.all Char.isWhitespace

/-- `SentimentAnalyzer.analyze`: the degenerate empty-input result, then
dispatch on the configured backend. -/
def SentimentAnalyzer.analyze (a : SentimentAnalyzer) (env : Env) (text : String) :
    AnalysisResult :=
  if isBlank text then
    { sentiment := Sentiment.Neutral, confidence := 0
      polarity := none, subjectivity := none, score := none
      model := none, error := some emptyTextError }
  else if a.model_type = sTransformers then analyze_with_transformers a env text
  else analyze_with_textblob env text

/-- `analyze_sentiment`: build a fresh analyzer and analyze. -/
def analyze_sentiment (env : Env) (text : String) (model_type : String) :
    AnalysisResult :=
  (SentimentAnalyzer.init env model_type).analyze env text

/-! ## `src/app/main.py` — the Boundary Service and the History Ledger -/

/-- One element of the module-level `analysis_history` list: the first 100
characters of the text, the sentiment, the confidence and the timestamp. -/
structure HistoryEntry where
  text : String
  sentiment : Sentiment
  confidence : ℚ
  timestamp : ℕ
deriving DecidableEq

/-- The record step of the `/analyze` endpoint:
`analysis_history.append(...)` followed by
`if len(analysis_history) > 100: analysis_history.pop(0)`. -/
def record (h : List HistoryEntry) (e : HistoryEntry) : List HistoryEntry :=
  if (h ++ [e]).length > 100 then (h ++ [e]).tail else h ++ [e]

/-- The `/history` endpoint's selection: `limit = min(limit, 100)` then the
Python slice `analysis_history[-limit:]` (which is the whole list when the
clamped limit is 0, and the last `limit` elements in stored order otherwise). -/
def history_recent (h : List HistoryEntry) (limit : ℕ) : List HistoryEntry :=
  if min limit 100 = 0 then h else h.drop (h.length - min limit 100)

/-- `sum(1 for item in analysis_history if item.get("sentiment") == s)`. -/
def countSentiment (h : List HistoryEntry) (s : Sentiment) : ℕ :=
  h.countP (fun e => e.sentiment = s)

/-- The three rounded percentages of the `/stats` endpoint, for a non-empty
history: `round((count / total) * 100, 2)` for each sentiment. -/
def statsPcts (h : List HistoryEntry) : ℚ × ℚ × ℚ :=
  (round2 ((countSentiment h Sentiment.Positive : ℚ) / (h.length : ℚ) * 100),
   round2 ((countSentiment h Sentiment.Negative : ℚ) / (h.length : ℚ) * 100),
   round2 ((countSentiment h Sentiment.Neutral : ℚ) / (h.length : ℚ) * 100))

/-- Python `str.strip()`: drop leading and trailing whitespace. -/
def pyStrip (s : String) : String :=
  ((s.data.dropWhile Char.isWhitespace).reverse.dropWhile Char.isWhitespace).reverse.asString

/-- The parsed JSON body of an `/analyze` request, with the dictionary
defaults already applied: `data.get("text", "")` and
`data.get("model", "textblob")`. -/
structure AnalyzeReq where
  text : String
  model : String

/-- The `/analyze` endpoint of `main.py`, over the history list it mutates.
`f` stands for the call `analyze_sentiment(text, model_type)` together with
everything else inside the `try:` block that may raise: `Except.error` models
an exception caught by the endpoint's `except` clause (a 500 response).
Returns ((status code, response result), new history list). -/
def analyze_endpoint (f : String → String → Except String AnalysisResult)
    (hist : List HistoryEntry) (req : Option AnalyzeReq) (ts : ℕ) :
    (ℕ × Option AnalysisResult) × List HistoryEntry :=
  match req with
  | none => ((400, none), hist)
  | some data =>
    let text := pyStrip data.text
    if text = ([] : List Char).asString then ((400, none), hist)
    else
      let mt0 := data.model.toLower
      let model_type := if mt0 = sTextblob ∨ mt0 = sTransformers then mt0 else sTextblob
      match f text model_type with
      | Except.error _ => ((500, none), hist)
      | Except.ok result =>
        let entry : HistoryEntry :=
          { text := text.take 100, sentiment := result.sentiment
            confidence := result.confidence, timestamp := ts }
        ((200, some result), record hist entry)

/-! ## Concrete sample values used to exercise the definitions -/

/-- A non-blank sample input text. -/
def sampleText : String := "sample feedback text"

/-- A whitespace-only sample input. -/
def sampleBlank : String := "   "

/-- A sample error message for a transient per-call failure. -/
def transientMsg : String := "transient failure"

/-- A lexicon scorer returning the same (polarity, subjectivity) for every
text, standing in for TextBlob in concrete runs. -/
def lexConst (p s : ℚ) : String → ℚ × ℚ := fun _ => (p, s)

/-- A deployment where the transformers library is absent. -/
def envLex (p s : ℚ) : Env :=
  { transformersAvailable := false, loadPipeline := none, lex := lexConst p s }

/-- A deployment where the transformers pipeline loads successfully. -/
def envT (tm : String → Except String TransformerOutput) (p s : ℚ) : Env :=
  { transformersAvailable := true, loadPipeline := some tm, lex := lexConst p s }

/-- A per-call transformer invocation that always raises. -/
def tmFail : String → Except String TransformerOutput :=
  fun _ => Except.error transientMsg

/-- A sample transformer output. -/
def out0 : TransformerOutput := { label := lPOSITIVE, score := 9/10 }

/-- A per-call transformer invocation that always succeeds with `out0`. -/
def tmOk : String → Except String TransformerOutput := fun _ => Except.ok out0

/-- An analyzer whose pipeline loaded as `tmOk`. -/
def a0 : SentimentAnalyzer :=
  { model_type := sTransformers, transformer_model := some tmOk }

/-- A sample history entry. -/
def e0 : HistoryEntry :=
  { text := sampleText, sentiment := Sentiment.Positive, confidence := 1, timestamp := 0 }

/-- A second, distinct sample history entry. -/
def e1 : HistoryEntry :=
  { text := sampleText, sentiment := Sentiment.Negative, confidence := 2, timestamp := 1 }

/-- 101 pairwise-distinct history entries (distinct timestamps). -/
def es101 : List HistoryEntry :=
  (List.range 101).map (fun i =>
    { text := sampleText, sentiment := Sentiment.Neutral, confidence := 0, timestamp := i })

/-- An analysis function that always raises an internal error, modelling an
unexpected exception inside the endpoint's `try:` block. -/
def failF : String → String → Except String AnalysisResult :=
  fun _ _ => Except.error transientMsg

/-- A sample parsed request body. -/
def req0 : Option AnalyzeReq := some { text := sampleText, model := sTextblob }

/-- Modelled from the spec (§4.3 classification policy): the confidence
formula exactly as the spec words it, with no rounding. Used only to compare
the code's returned confidence against the spec's formula. -/
def specConfidenceFormula (p : ℚ) : ℚ :=
  if p > 1/10 then min (p * 100) 100
  else if p < -(1/10) then min (|p| * 100) 100
  else 100 - |p| * 100

/-! ## Helper lemmas -/

theorem roundHalfEven_close (x : ℚ) : |(roundHalfEven x : ℚ) - x| ≤ 1/2 := by
  have h0 : (⌊x⌋ : ℚ) ≤ x := Int.floor_le x
  have h1 : x < ⌊x⌋ + 1 := Int.lt_floor_add_one x
  unfold roundHalfEven
  split_ifs with ha hb hc <;> rw [abs_le] <;> constructor <;> push_cast <;> linarith

theorem le_roundHalfEven (a : ℤ) (x : ℚ) (h : (a : ℚ) ≤ x) : a ≤ roundHalfEven x := by
  have hf : a ≤ ⌊x⌋ := Int.le_floor.mpr h
  unfold roundHalfEven
  split_ifs <;> omega

theorem roundHalfEven_le (b : ℤ) (x : ℚ) (h : x ≤ (b : ℚ)) : roundHalfEven x ≤ b := by
  have hf : ⌊x⌋ ≤ b := by
    have := Int.floor_le_floor h
    simpa using this
  unfold roundHalfEven
  split_ifs with ha hb hc
  · exact hf
  · have hx : (⌊x⌋ : ℚ) < (b : ℚ) := by
      have := Int.floor_le x
      linarith
    have : ⌊x⌋ < b := by exact_mod_cast hx
    omega
  · exact hf
  · have hx : (⌊x⌋ : ℚ) < (b : ℚ) := by
      have h2 : (1 : ℚ)/2 ≤ x - ⌊x⌋ := le_of_not_lt ha
      linarith
    have : ⌊x⌋ < b := by exact_mod_cast hx
    omega

theorem round2_lower (a : ℤ) (x : ℚ) (h : (a : ℚ) ≤ x) : (a : ℚ) ≤ round2 x := by
  have := le_roundHalfEven (a * 100) (x * 100) (by push_cast; linarith)
  unfold round2
  have hq : ((a * 100 : ℤ) : ℚ) ≤ (roundHalfEven (x * 100) : ℚ) := by exact_mod_cast this
  push_cast at hq
  linarith

theorem round2_upper (b : ℤ) (x : ℚ) (h : x ≤ (b : ℚ)) : round2 x ≤ (b : ℚ) := by
  have := roundHalfEven_le (b * 100) (x * 100) (by push_cast; linarith)
  unfold round2
  have hq : (roundHalfEven (x * 100) : ℚ) ≤ ((b * 100 : ℤ) : ℚ) := by exact_mod_cast this
  push_cast at hq
  linarith

theorem countSentiment_partition (h : List HistoryEntry) :
    countSentiment h Sentiment.Positive + countSentiment h Sentiment.Negative +
      countSentiment h Sentiment.Neutral = h.length := by
  induction h with
  | nil => rfl
  | cons e t ih =>
    unfold countSentiment at ih ⊢
    rcases e with ⟨txt, s, c, ts⟩
    cases s <;> simp [List.countP_cons] <;> omega

theorem record_length_le (h : List HistoryEntry) (e : HistoryEntry)
    (hle : h.length ≤ 100) : (record h e).length ≤ 100 := by
  unfold record
  split_ifs with hgt
  · simp at hgt ⊢
    omega
  · simp at hgt ⊢
    omega

theorem foldl_record_eq (es : List HistoryEntry) :
    ∀ h : List HistoryEntry, h.length ≤ 100 →
      List.foldl record h es = (h ++ es).drop ((h ++ es).length - 100) := by
  induction es with
  | nil =>
    intro h hle
    simp only [List.foldl_nil, List.append_nil]
    have h0 : h.length - 100 = 0 := by omega
    rw [h0, List.drop_zero]
  | cons e t ih =>
    intro h hle
    have hstep : List.foldl record h (e :: t) = List.foldl record (record h e) t := rfl
    rw [hstep, ih (record h e) (record_length_le h e hle)]
    by_cases hfull : h.length = 100
    · have hne : h ≠ [] := by
        intro hnil
        rw [hnil] at hfull
        simp at hfull
      have hrec : record h e = (h ++ [e]).drop 1 := by
        unfold record
        rw [if_pos (by simp; omega), List.drop_one]
      rw [hrec]
      have hdd : ((h ++ [e]).drop 1) ++ t = (h ++ e :: t).drop 1 := by
        rw [List.drop_append_of_le_length (by omega),
            List.drop_append_of_le_length (by omega)]
        simp
      rw [hdd, List.drop_drop, List.length_drop]
      congr 1
      simp
      omega
    · have hlt : h.length < 100 := by omega
      have hrec : record h e = h ++ [e] := by
        unfold record
        rw [if_neg (by simp; omega)]
      rw [hrec]
      congr 1 <;> simp

theorem foldl_record_nil (es : List HistoryEntry) :
    List.foldl record [] es = es.drop (es.length - 100) := by
  have := foldl_record_eq es [] (by simp)
  simpa using this

theorem analyze_with_textblob_model (env : Env) (text : String) :
    (analyze_with_textblob env text).model = some mTextBlob := by
  simp only [analyze_with_textblob]
  split_ifs <;> rfl

theorem analyze_with_transformers_some (a : SentimentAnalyzer) (env : Env)
    (text : String) (tm : String → Except String TransformerOutput)
    (hm : a.transformer_model = some tm) :
    analyze_with_transformers a env text =
      (match tm (truncate512 text) with
       | Except.error _ => analyze_with_textblob env text
       | Except.ok r =>
         { sentiment :=
             if r.label = lPOSITIVE then Sentiment.Positive
             else if r.label = lNEGATIVE then Sentiment.Negative
             else Sentiment.Neutral
           confidence := round2 (r.score * 100)
           polarity := none, subjectivity := none
           score := some (round3 r.score)
           model := some mDistilBERT, error := none }) := by
  unfold analyze_with_transformers
  rw [hm]

/-! ## Claims -/

/-- Claim C1, counterexample: for the lexicon polarity p = 1/3 (> 0.1) the
returned confidence is the rounded value 33.33, not min(p·100, 100) = 100/3,
so the claim's exact confidence equation fails on the code. -/
theorem c1_confidence_exact_counterexample :
    ((envLex (1/3) 0).lex sampleText).1 > 1/10 ∧
    (analyze_with_textblob (envLex (1/3) 0) sampleText).sentiment = Sentiment.Positive ∧
    (analyze_with_textblob (envLex (1/3) 0) sampleText).confidence ≠
      min (((envLex (1/3) 0).lex sampleText).1 * 100) 100 := by
  have hp : ((envLex (1/3) 0).lex sampleText).1 = 1/3 := rfl
  refine ⟨by rw [hp]; norm_num, ?_, ?_⟩
  · simp only [analyze_with_textblob, hp]
    rw [if_pos (by norm_num : (1:ℚ)/3 > 1/10)]
  · simp only [analyze_with_textblob, hp]
    rw [if_pos (by norm_num : (1:ℚ)/3 > 1/10)]
    show round2 (min ((1/3 : ℚ) * 100) 100) ≠ min ((1/3 : ℚ) * 100) 100
    norm_num [round2, roundHalfEven, min_def]

/-- Claim C1 (amended): for lexicon polarity p > 0.1 the Lexicon backend
returns sentiment Positive with confidence round(min(p·100, 100), 2), and for
p < -0.1 sentiment Negative with confidence round(min(|p|·100, 100), 2) —
the code rounds the spec's formula to two decimals before returning. -/
theorem c1_positive_negative_classification (env : Env) (text : String) :
    (((env.lex text).1 > 1/10 →
      (analyze_with_textblob env text).sentiment = Sentiment.Positive ∧
      (analyze_with_textblob env text).confidence =
        round2 (min ((env.lex text).1 * 100) 100)) ∧
     ((env.lex text).1 < -(1/10) →
      (analyze_with_textblob env text).sentiment = Sentiment.Negative ∧
      (analyze_with_textblob env text).confidence =
        round2 (min (|(env.lex text).1| * 100) 100))) := by
  constructor
  · intro hp
    simp only [analyze_with_textblob]
    split_ifs
    exact ⟨rfl, rfl⟩
  · intro hp
    simp only [analyze_with_textblob]
    split_ifs with h1
    · linarith
    · exact ⟨rfl, rfl⟩

/-- Claim C1, witness: the amended theorem applied at concrete polarities
1/2 and -1/2. -/
theorem c1_positive_negative_classification_witness :
    ((analyze_with_textblob (envLex (1/2) 0) sampleText).sentiment = Sentiment.Positive ∧
     (analyze_with_textblob (envLex (1/2) 0) sampleText).confidence =
       round2 (min (((envLex (1/2) 0).lex sampleText).1 * 100) 100)) ∧
    ((analyze_with_textblob (envLex (-(1/2)) 0) sampleText).sentiment = Sentiment.Negative ∧
     (analyze_with_textblob (envLex (-(1/2)) 0) sampleText).confidence =
       round2 (min (|((envLex (-(1/2)) 0).lex sampleText).1| * 100) 100)) :=
  ⟨(c1_positive_negative_classification (envLex (1/2) 0) sampleText).1
      (by show (1:ℚ)/2 > 1/10; norm_num),
   (c1_positive_negative_classification (envLex (-(1/2)) 0) sampleText).2
      (by show (-(1/2) : ℚ) < -(1/10); norm_num)⟩

/-- Claim C2, counterexample: for the lexicon polarity p = 1/30 (inside
[-0.1, 0.1]) the returned confidence is the rounded value 96.67, not
100 − |p|·100 = 290/3, so the claim's exact confidence equation fails. -/
theorem c2_neutral_exact_counterexample :
    -(1/10) ≤ ((envLex (1/30) 0).lex sampleText).1 ∧
    ((envLex (1/30) 0).lex sampleText).1 ≤ 1/10 ∧
    (analyze_with_textblob (envLex (1/30) 0) sampleText).sentiment = Sentiment.Neutral ∧
    (analyze_with_textblob (envLex (1/30) 0) sampleText).confidence ≠
      100 - |((envLex (1/30) 0).lex sampleText).1| * 100 := by
  have hp : ((envLex (1/30) 0).lex sampleText).1 = 1/30 := rfl
  have habs : |(1/30 : ℚ)| = 1/30 := abs_of_pos (by norm_num)
  refine ⟨by rw [hp]; norm_num, by rw [hp]; norm_num, ?_, ?_⟩
  · simp only [analyze_with_textblob, hp]
    rw [if_neg (by norm_num : ¬((1:ℚ)/30 > 1/10)),
        if_neg (by norm_num : ¬((1:ℚ)/30 < -(1/10)))]
  · simp only [analyze_with_textblob, hp]
    rw [if_neg (by norm_num : ¬((1:ℚ)/30 > 1/10)),
        if_neg (by norm_num : ¬((1:ℚ)/30 < -(1/10)))]
    show round2 (100 - |(1/30 : ℚ)| * 100) ≠ 100 - |(1/30 : ℚ)| * 100
    rw [habs]
    norm_num [round2, roundHalfEven]

/-- Claim C2 (amended): for lexicon polarity -0.1 ≤ p ≤ 0.1 the Lexicon
backend returns sentiment Neutral with confidence round(100 − |p|·100, 2),
and that confidence lies in [90, 100]. -/
theorem c2_neutral_classification (env : Env) (text : String)
    (h1 : -(1/10) ≤ (env.lex text).1) (h2 : (env.lex text).1 ≤ 1/10) :
    (analyze_with_textblob env text).sentiment = Sentiment.Neutral ∧
    (analyze_with_textblob env text).confidence =
      round2 (100 - |(env.lex text).1| * 100) ∧
    90 ≤ (analyze_with_textblob env text).confidence ∧
    (analyze_with_textblob env text).confidence ≤ 100 := by
  have habs : |(env.lex text).1| ≤ 1/10 := abs_le.mpr ⟨h1, h2⟩
  have habs0 : 0 ≤ |(env.lex text).1| := abs_nonneg _
  simp only [analyze_with_textblob]
  split_ifs with ha hb
  · linarith
  · linarith
  · refine ⟨rfl, rfl, ?_, ?_⟩
    · show (90 : ℚ) ≤ round2 (100 - |(env.lex text).1| * 100)
      exact_mod_cast round2_lower 90 (100 - |(env.lex text).1| * 100)
        (by push_cast; linarith)
    · show round2 (100 - |(env.lex text).1| * 100) ≤ (100 : ℚ)
      exact_mod_cast round2_upper 100 (100 - |(env.lex text).1| * 100)
        (by push_cast; linarith)

/-- Claim C3: for every empty or whitespace-only input, `analyze` returns
(rather than raising) the degenerate result with sentiment Neutral,
confidence 0 and the explicit empty-input marker, whatever backend the
analyzer was configured with. -/
theorem c3_blank_input_degenerate (a : SentimentAnalyzer) (env : Env) (text : String)
    (h : isBlank text = true) :
    (a.analyze env text).sentiment = Sentiment.Neutral ∧
    (a.analyze env text).confidence = 0 ∧
    (a.analyze env text).error = some emptyTextError := by
  unfold SentimentAnalyzer.analyze
  rw [if_pos h]
  exact ⟨rfl, rfl, rfl⟩

/-- Claim C3, witness: a whitespace-only input under both requested
backends. -/
theorem c3_blank_input_degenerate_witness :
    (((SentimentAnalyzer.init (envLex 0 0) sTextblob).analyze (envLex 0 0) sampleBlank).sentiment
        = Sentiment.Neutral ∧
     ((SentimentAnalyzer.init (envLex 0 0) sTextblob).analyze (envLex 0 0) sampleBlank).confidence
        = 0 ∧
     ((SentimentAnalyzer.init (envLex 0 0) sTextblob).analyze (envLex 0 0) sampleBlank).error
        = some emptyTextError) ∧
    (((SentimentAnalyzer.init (envLex 0 0) sTransformers).analyze (envLex 0 0) sampleBlank).sentiment
        = Sentiment.Neutral ∧
     ((SentimentAnalyzer.init (envLex 0 0) sTransformers).analyze (envLex 0 0) sampleBlank).confidence
        = 0 ∧
     ((SentimentAnalyzer.init (envLex 0 0) sTransformers).analyze (envLex 0 0) sampleBlank).error
        = some emptyTextError) :=
  ⟨c3_blank_input_degenerate (SentimentAnalyzer.init (envLex 0 0) sTextblob)
      (envLex 0 0) sampleBlank (by rfl),
   c3_blank_input_degenerate (SentimentAnalyzer.init (envLex 0 0) sTransformers)
      (envLex 0 0) sampleBlank (by rfl)⟩

/-- Claim C4: for non-blank text, requesting the transformers backend when it
is unavailable — the library is absent or the pipeline load raised — returns
the TextBlob result (no error), and the result's `model` field says
"TextBlob", not the requested backend. -/
theorem c4_unavailable_pretrained_uses_lexicon (env : Env) (text : String)
    (h1 : env.transformersAvailable = false ∨ env.loadPipeline = none)
    (h2 : isBlank text = false) :
    analyze_sentiment env text sTransformers = analyze_with_textblob env text ∧
    (analyze_sentiment env text sTransformers).model = some mTextBlob := by
  have hinit : SentimentAnalyzer.init env sTransformers =
      { model_type := sTextblob, transformer_model := none } := by
    unfold SentimentAnalyzer.init
    rw [if_pos rfl]
    rcases h1 with h | h
    · rw [h, if_neg (by simp)]
    · cases hta : env.transformersAvailable
      · rw [if_neg (by simp)]
      · rw [if_pos rfl, h]
  have key : analyze_sentiment env text sTransformers = analyze_with_textblob env text := by
    unfold analyze_sentiment
    rw [hinit]
    unfold SentimentAnalyzer.analyze
    rw [if_neg (by simp [h2]), if_neg (by decide)]
  exact ⟨key, by rw [key]; exact analyze_with_textblob_model env text⟩

/-- Claim C4, witness: a deployment without the transformers library, on a
non-blank text. -/
theorem c4_unavailable_pretrained_uses_lexicon_witness :
    analyze_sentiment (envLex (1/2) 0) sampleText sTransformers
      = analyze_with_textblob (envLex (1/2) 0) sampleText ∧
    (analyze_sentiment (envLex (1/2) 0) sampleText sTransformers).model = some mTextBlob :=
  c4_unavailable_pretrained_uses_lexicon (envLex (1/2) 0) sampleText
    (Or.inl rfl) (by rfl)

/-- Claim C5: when the transformers backend is available but the per-call
invocation raises, `analyze` catches the failure and returns the TextBlob
result for that call; the error never reaches the caller. -/
theorem c5_transient_failure_falls_back (env : Env) (text : String)
    (tm : String → Except String TransformerOutput) (msg : String)
    (h1 : env.transformersAvailable = true)
    (h2 : env.loadPipeline = some tm)
    (h3 : tm (truncate512 text) = Except.error msg)
    (h4 : isBlank text = false) :
    analyze_sentiment env text sTransformers = analyze_with_textblob env text := by
  have hinit : SentimentAnalyzer.init env sTransformers =
      { model_type := sTransformers, transformer_model := some tm } := by
    unfold SentimentAnalyzer.init
    rw [if_pos rfl, h1, if_pos rfl, h2]
  unfold analyze_sentiment
  rw [hinit]
  unfold SentimentAnalyzer.analyze
  rw [if_neg (by simp [h4]), if_pos rfl,
      analyze_with_transformers_some _ env text tm rfl, h3]

/-- Claim C5, witness: a loaded pipeline whose per-call invocation always
raises, on a non-blank text. -/
theorem c5_transient_failure_falls_back_witness :
    analyze_sentiment (envT tmFail (1/2) 0) sampleText sTransformers
      = analyze_with_textblob (envT tmFail (1/2) 0) sampleText :=
  c5_transient_failure_falls_back (envT tmFail (1/2) 0) sampleText tmFail
    transientMsg rfl rfl rfl (by rfl)

/-- Claim C2, witness: the amended theorem applied at the polarity 1/20. -/
theorem c2_neutral_classification_witness :
    (analyze_with_textblob (envLex (1/20) 0) sampleText).sentiment = Sentiment.Neutral ∧
    (analyze_with_textblob (envLex (1/20) 0) sampleText).confidence =
      round2 (100 - |((envLex (1/20) 0).lex sampleText).1| * 100) ∧
    90 ≤ (analyze_with_textblob (envLex (1/20) 0) sampleText).confidence ∧
    (analyze_with_textblob (envLex (1/20) 0) sampleText).confidence ≤ 100 :=
  c2_neutral_classification (envLex (1/20) 0) sampleText
    (by show -(1/10 : ℚ) ≤ 1/20; norm_num) (by show (1/20 : ℚ) ≤ 1/10; norm_num)

/-- Claim C6: the Ledger never grows beyond 100 entries under any sequence of
record operations, and recording 100 + k entries (k > 0) leaves exactly the
last 100 recorded entries, the first k being evicted (strict FIFO): under a
no-duplicates assumption none of the first k entries remains. -/
theorem c6_ledger_capacity_fifo (es fs : List HistoryEntry) (k : ℕ)
    (hk : 0 < k) (hlen : es.length = 100 + k) :
    List.foldl record [] es = es.drop k ∧
    (List.foldl record [] es).length = 100 ∧
    (List.foldl record [] fs).length ≤ 100 ∧
    (es.Nodup → ∀ e ∈ es.take k, e ∉ List.foldl record [] es) := by
  have hmain := foldl_record_nil es
  have hdropk : es.length - 100 = k := by omega
  rw [hmain, hdropk]
  refine ⟨rfl, ?_, ?_, ?_⟩
  · rw [List.length_drop]
    omega
  · rw [foldl_record_nil fs, List.length_drop]
    omega
  · intro hnd e hmem hcon
    rw [← List.take_append_drop k es] at hnd
    exact (List.nodup_append.mp hnd).2.2 hmem hcon

/-- Claim C6, witness: 101 pairwise-distinct entries recorded into an empty
Ledger; the first entry is evicted and the size stays 100. -/
theorem c6_ledger_capacity_fifo_witness :
    es101.length = 100 + 1 ∧
    List.foldl record [] es101 = es101.drop 1 ∧
    (List.foldl record [] es101).length = 100 ∧
    (List.foldl record [] [e0]).length ≤ 100 :=
  ⟨by simp [es101],
   (c6_ledger_capacity_fifo es101 [e0] 1 (by norm_num) (by simp [es101])).1,
   (c6_ledger_capacity_fifo es101 [e0] 1 (by norm_num) (by simp [es101])).2.1,
   (c6_ledger_capacity_fifo es101 [e0] 1 (by norm_num) (by simp [es101])).2.2.1⟩

/-- Claim C7, counterexample: the `/history` endpoint slice is
most-recent-LAST (chronological), not most-recent-first, and a requested
limit of 0 returns the whole stored list rather than an empty one, so its
length is not min(limit, size, 100). -/
theorem c7_recent_counterexample :
    (history_recent [e0] 0).length ≠ min (min 0 ([e0] : List HistoryEntry).length) 100 ∧
    history_recent [e0, e1] 2 ≠ [e1, e0] := by
  constructor
  · simp [history_recent]
  · have h2 : history_recent [e0, e1] 2 = [e0, e1] := rfl
    rw [h2]
    simp [e0, e1]

/-- Claim C7 (amended): for limit ≥ 1 the endpoint returns the last
min(limit, size, 100) stored entries in stored (chronological,
most-recent-last) order — a suffix of the Ledger; for limit = 0 it returns
the whole stored list. -/
theorem c7_recent_clamped_suffix (h : List HistoryEntry) (limit : ℕ) :
    history_recent h 0 = h ∧
    (1 ≤ limit →
      history_recent h limit = h.drop (h.length - min limit 100) ∧
      (history_recent h limit).length = min (min limit h.length) 100) := by
  constructor
  · simp [history_recent]
  · intro hl
    have hmin : ¬(min limit 100 = 0) := by omega
    unfold history_recent
    rw [if_neg hmin]
    refine ⟨rfl, ?_⟩
    rw [List.length_drop]
    omega

/-- Claim C7, witness: the amended theorem at a two-entry Ledger with
limit 1. -/
theorem c7_recent_clamped_suffix_witness :
    history_recent [e0, e1] 1
        = ([e0, e1] : List HistoryEntry).drop (([e0, e1] : List HistoryEntry).length - min 1 100) ∧
    (history_recent [e0, e1] 1).length = min (min 1 ([e0, e1] : List HistoryEntry).length) 100 :=
  (c7_recent_clamped_suffix [e0, e1] 1).2 (by norm_num)

/-- Claim C8: for any non-empty Ledger, the three rounded percentages of the
`/stats` endpoint sum to 100 within ±0.01. -/
theorem c8_stats_sum_law (h : List HistoryEntry) (hne : h ≠ []) :
    |(statsPcts h).1 + (statsPcts h).2.1 + (statsPcts h).2.2 - 100| ≤ 1/100 := by
  have ht : 0 < h.length := List.length_pos.mpr hne
  have ht0 : ((h.length : ℚ)) ≠ 0 := Nat.cast_ne_zero.mpr (by omega)
  have hsum : (countSentiment h Sentiment.Positive : ℚ) +
      (countSentiment h Sentiment.Negative : ℚ) +
      (countSentiment h Sentiment.Neutral : ℚ) = (h.length : ℚ) := by
    exact_mod_cast countSentiment_partition h
  simp only [statsPcts, round2]
  set p : ℚ := (countSentiment h Sentiment.Positive : ℚ) with hp
  set n : ℚ := (countSentiment h Sentiment.Negative : ℚ) with hn
  set u : ℚ := (countSentiment h Sentiment.Neutral : ℚ) with hu
  set t : ℚ := (h.length : ℚ) with htq
  have habc : p / t * 100 * 100 + n / t * 100 * 100 + u / t * 100 * 100 = 10000 := by
    field_simp
    linarith
  have hA := abs_le.mp (roundHalfEven_close (p / t * 100 * 100))
  have hB := abs_le.mp (roundHalfEven_close (n / t * 100 * 100))
  have hC := abs_le.mp (roundHalfEven_close (u / t * 100 * 100))
  set A : ℤ := roundHalfEven (p / t * 100 * 100) with hAdef
  set B : ℤ := roundHalfEven (n / t * 100 * 100) with hBdef
  set C : ℤ := roundHalfEven (u / t * 100 * 100) with hCdef
  have hlow : (9999 : ℤ) ≤ A + B + C := by
    by_contra hcon
    push_neg at hcon
    have hle : A + B + C ≤ 9998 := by omega
    have hq : ((A : ℚ)) + B + C ≤ 9998 := by exact_mod_cast hle
    linarith
  have hhigh : A + B + C ≤ 10001 := by
    by_contra hcon
    push_neg at hcon
    have hge : (10002 : ℤ) ≤ A + B + C := by omega
    have hq : (10002 : ℚ) ≤ ((A : ℚ)) + B + C := by exact_mod_cast hge
    linarith
  have hlowq : (9999 : ℚ) ≤ ((A : ℚ)) + B + C := by exact_mod_cast hlow
  have hhighq : ((A : ℚ)) + B + C ≤ 10001 := by exact_mod_cast hhigh
  rw [abs_le]
  constructor <;> linarith

/-- Claim C8, witness: the sum law at a one-entry Ledger. -/
theorem c8_stats_sum_law_witness :
    |(statsPcts [e0]).1 + (statsPcts [e0]).2.1 + (statsPcts [e0]).2.2 - 100| ≤ 1/100 :=
  c8_stats_sum_law [e0] (by simp)

/-- Claim C9: on any request whose analysis fails (the endpoint does not
answer 200) the history list is returned unchanged, and in every case the
final history is either the unchanged one or the result of one atomic
eviction-plus-append — never a partial mutation. -/
theorem c9_failed_analysis_not_recorded
    (f : String → String → Except String AnalysisResult)
    (hist : List HistoryEntry) (req : Option AnalyzeReq) (ts : ℕ) :
    ((analyze_endpoint f hist req ts).1.1 ≠ 200 →
      (analyze_endpoint f hist req ts).2 = hist) ∧
    ((analyze_endpoint f hist req ts).2 = hist ∨
      ∃ e : HistoryEntry, (analyze_endpoint f hist req ts).2 = record hist e) := by
  rcases req with _ | data
  · exact ⟨fun _ => rfl, Or.inl rfl⟩
  · simp only [analyze_endpoint]
    split_ifs with htext hmodel
    · exact ⟨fun _ => rfl, Or.inl rfl⟩
    · split
      · exact ⟨fun _ => rfl, Or.inl rfl⟩
      · exact ⟨fun hcon => absurd rfl hcon, Or.inr ⟨_, rfl⟩⟩
    · split
      · exact ⟨fun _ => rfl, Or.inl rfl⟩
      · exact ⟨fun hcon => absurd rfl hcon, Or.inr ⟨_, rfl⟩⟩

/-- Claim C9, witness: an analysis function that always raises leaves a
ledger untouched (the endpoint answers 500). -/
theorem c9_failed_analysis_not_recorded_witness :
    (analyze_endpoint failF [] req0 0).1.1 ≠ 200 ∧
    (analyze_endpoint failF [] req0 0).2 = [] :=
  ⟨by decide,
   (c9_failed_analysis_not_recorded failF [] req0 0).1 (by decide)⟩

/-- Claim C10: the Lexicon backend returns confidence rounded to 2 decimals
of the spec formula, polarity and subjectivity rounded to 3 decimals; the
transformers backend returns confidence round(score·100, 2) and the score
rounded to 3 decimals; and there is an input on which the returned confidence
differs from the unrounded spec formula. -/
theorem c10_results_are_rounded (env : Env) (a : SentimentAnalyzer)
    (text : String) (tm : String → Except String TransformerOutput)
    (out : TransformerOutput)
    (hm : a.transformer_model = some tm)
    (hok : tm (truncate512 text) = Except.ok out) :
    (analyze_with_textblob env text).confidence
        = round2 (specConfidenceFormula (env.lex text).1) ∧
    (analyze_with_textblob env text).polarity = some (round3 (env.lex text).1) ∧
    (analyze_with_textblob env text).subjectivity = some (round3 (env.lex text).2) ∧
    (analyze_with_transformers a env text).confidence = round2 (out.score * 100) ∧
    (analyze_with_transformers a env text).score = some (round3 out.score) ∧
    ∃ env0 : Env, ∃ t0 : String,
      (analyze_with_textblob env0 t0).confidence
        ≠ specConfidenceFormula ((env0.lex t0).1) := by
  have htr := analyze_with_transformers_some a env text tm hm
  rw [hok] at htr
  have htb : (analyze_with_textblob env text).confidence
        = round2 (specConfidenceFormula (env.lex text).1) ∧
      (analyze_with_textblob env text).polarity = some (round3 (env.lex text).1) ∧
      (analyze_with_textblob env text).subjectivity = some (round3 (env.lex text).2) := by
    simp only [analyze_with_textblob, specConfidenceFormula]
    split_ifs <;> exact ⟨rfl, rfl, rfl⟩
  refine ⟨htb.1, htb.2.1, htb.2.2, by rw [htr], by rw [htr], envLex (1/3) 0, sampleText, ?_⟩
  have hp : ((envLex (1/3) 0).lex sampleText).1 = 1/3 := rfl
  simp only [analyze_with_textblob, specConfidenceFormula, hp]
  rw [if_pos (by norm_num : (1:ℚ)/3 > 1/10), if_pos (by norm_num : (1:ℚ)/3 > 1/10)]
  show round2 (min ((1/3 : ℚ) * 100) 100) ≠ min ((1/3 : ℚ) * 100) 100
  norm_num [round2, roundHalfEven, min_def]

/-- Claim C10, witness: a loaded pipeline that returns label POSITIVE with
score 9/10; the returned confidence is round(90, 2) and the score field
round(9/10, 3). -/
theorem c10_results_are_rounded_witness :
    (analyze_with_textblob (envLex (1/2) 0) sampleBlank).confidence
        = round2 (specConfidenceFormula ((envLex (1/2) 0).lex sampleBlank).1) ∧
    (analyze_with_transformers a0 (envLex (1/2) 0) sampleBlank).confidence
        = round2 (out0.score * 100) ∧
    (analyze_with_transformers a0 (envLex (1/2) 0) sampleBlank).score
        = some (round3 out0.score) :=
  ⟨(c10_results_are_rounded (envLex (1/2) 0) a0 sampleBlank tmOk out0 rfl rfl).1,
   (c10_results_are_rounded (envLex (1/2) 0) a0 sampleBlank tmOk out0 rfl rfl).2.2.2.1,
   (c10_results_are_rounded (envLex (1/2) 0) a0 sampleBlank tmOk out0 rfl rfl).2.2.2.2.1⟩

end AutoFeedback
